import Mathlib

/-!
Verification of the clinical calculation / classification engine of the
cardiac-report-generator repository, as a shallow embedding in Lean 4.

Conventions of the embedding:
* Python floats are modelled as exact rationals (`ℚ`).  The measurement
  values flowing through the engine are decimal user inputs, for which
  this is exact.
* `None`-able values are modelled as `Option _`.
* Python `round` (banker's rounding, round-half-to-even) is modelled by
  `pyRoundInt` / `pyRoundTo`.
* Code that `raise`s is modelled with `Except String _`.
* `st.session_state` (a string-keyed dict read through
  `EchoReportInput.get_session_float`) is modelled as a record holding the
  already-parsed optional numeric value for each key the engine reads, plus
  the boolean / numeric flags the recommendation engine reads.
-/

/-- Python `round(x)` -> int: round half to even (banker's rounding). -/
def pyRoundInt (q : ℚ) : ℤ :=
  let f : ℤ := ⌊q⌋
  let r : ℚ := q - f
  if r < 1/2 then f
  else if 1/2 < r then f + 1
  else if f % 2 = 0 then f else f + 1

/-- Python `round(x, n)` for `n` decimal places (half to even). -/
def pyRoundTo (q : ℚ) (n : ℕ) : ℚ :=
  (pyRoundInt (q * 10 ^ n) : ℚ) / 10 ^ n

/-- Python `int(x)` on a float: truncation toward zero. -/
def pyIntTrunc (q : ℚ) : ℤ :=
  if q < 0 then ⌈q⌉ else ⌊q⌋

/-- Left-pad a digit string with zeros up to width `n`. -/
def padZeros (s : String) (n : ℕ) : String :=
  String.mk (List.replicate (n - s.length) '0') ++ s

/-- Python `f-string` fixed-point formatting `f"{x:.nf}"` (half to even). -/
def fmtFixed (q : ℚ) (n : ℕ) : String :=
  let sc : ℤ := pyRoundInt (q * 10 ^ n)
  if n = 0 then toString sc
  else
    let neg : Bool := sc < 0 || (sc == 0 && q < 0)
    let a : ℕ := sc.natAbs
    let ip : ℕ := a / 10 ^ n
    let fp : ℕ := a % 10 ^ n
    (if neg then "-" else "") ++ toString ip ++ "." ++ padZeros (toString fp) n

/-- Number of decimal digits needed to write `q` exactly (up to 60), if any. -/
def decDigits (q : ℚ) : Option ℕ :=
  (List.range 61).find? (fun k => (q * 10 ^ k).den == 1)

/-- Python `str(float)` for decimal-representable values: minimal decimal
digits, at least one fractional digit (`5.0`, `0.5`, `33.3`).  Scientific
notation for very large/small magnitudes is not modelled; no value reaching
a formatting site in the claims hits that regime. -/
def pyFloatStr (q : ℚ) : String :=
  let neg : Bool := q < 0
  let a : ℚ := |q|
  let sign := if neg then "-" else ""
  match decDigits a with
  | none => sign ++ toString a.num ++ "/" ++ toString a.den
  | some 0 => sign ++ toString a.num ++ ".0"
  | some k =>
    let s : ℕ := (a * 10 ^ k).num.natAbs
    let ip : ℕ := s / 10 ^ k
    let fp : ℕ := s % 10 ^ k
    sign ++ toString ip ++ "." ++ padZeros (toString fp) k

/-- Does `hay` start with `needle` (on exploded characters)? -/
def leadsWith : List Char → List Char → Bool
  | _, [] => true
  | [], _ :: _ => false
  | a :: as, b :: bs => a == b && leadsWith as bs

/-- Does `hay` contain `needle` as a contiguous run? -/
def hasSub (hay needle : List Char) : Bool :=
  match hay with
  | [] => needle.isEmpty
  | _ :: t => leadsWith hay needle || hasSub t needle

/-- Python `needle in hay` on strings. -/
def strContains (hay needle : String) : Bool :=
  hasSub hay.data needle.data

/-- Python truthiness of an optional string (`None` and `""` are falsy). -/
def truthy : Option String → Bool
  | none => false
  | some s => s ≠ ""

/-- Python `a or b` on optional strings. -/
def pyOrStr (a b : Option String) : Option String :=
  if truthy a then a else b

/-- `v is not None and v > c` for an optional number. -/
def oGT (v : Option ℚ) (c : ℚ) : Bool :=
  match v with
  | some x => x > c
  | none => false

/-- `v is not None and v >= c` for an optional number. -/
def oGE (v : Option ℚ) (c : ℚ) : Bool :=
  match v with
  | some x => x ≥ c
  | none => false

/-- `v is not None and v < c` for an optional number. -/
def oLT (v : Option ℚ) (c : ℚ) : Bool :=
  match v with
  | some x => x < c
  | none => false

/-- `v is not None and v <= c` for an optional number. -/
def oLE (v : Option ℚ) (c : ℚ) : Bool :=
  match v with
  | some x => x ≤ c
  | none => false

/-! ## calculations.py -/

/-- `calculations.classify_ivsd` (calculations.py lines 35-51). -/
def classify_ivsd (ivsd_mm : ℚ) (sex : String) : String :=
  if sex = "Man" then
    if ivsd_mm ≤ 10 then "Normotroof"
    else if ivsd_mm ≤ 13 then "Mild concentrisch hypertroof"
    else if ivsd_mm ≤ 16 then "Matig concentrisch hypertroof"
    else "Ernstig concentrisch hypertroof"
  else
    if ivsd_mm ≤ 9 then "Normotroof"
    else if ivsd_mm ≤ 12 then "Mild concentrisch hypertroof"
    else if ivsd_mm ≤ 15 then "Matig concentrisch hypertroof"
    else "Ernstig concentrisch hypertroof"

/-- `calculations.classify_lvef` (calculations.py lines 64-83).  The Python
body is a sequence of guarded `return`s; each guard carries its sex
condition here. -/
def classify_lvef (lvef_pct : ℚ) (sex : String) : String :=
  if lvef_pct < 30 then "Ernstig"
  else if 30 ≤ lvef_pct ∧ lvef_pct ≤ 40 then "Matig"
  else if sex = "Man" ∧ 41 ≤ lvef_pct ∧ lvef_pct ≤ 51 then "Mild"
  else if sex ≠ "Man" ∧ 41 ≤ lvef_pct ∧ lvef_pct ≤ 53 then "Mild"
  else if sex = "Man" ∧ 52 ≤ lvef_pct ∧ lvef_pct ≤ 72 then "Normaal"
  else if sex ≠ "Man" ∧ 54 ≤ lvef_pct ∧ lvef_pct ≤ 74 then "Normaal"
  else if lvef_pct < 41 then "Matig"
  else "Mild"

/-- `calculations.lv_mass_index_severity` (calculations.py lines 111-128). -/
def lv_mass_index_severity (lv_mass_g : ℚ) (bsa_m2 : ℚ) (sex : String) :
    ℚ × String :=
  let mass_index := pyRoundTo (lv_mass_g / max (1/10) bsa_m2) 1
  if sex = "Man" then
    if mass_index < 115 then (mass_index, "Normaal")
    else if 116 ≤ mass_index ∧ mass_index ≤ 131 then (mass_index, "Mild")
    else if 132 ≤ mass_index ∧ mass_index ≤ 148 then (mass_index, "Matig")
    else (mass_index, "Ernstig")
  else
    if mass_index < 95 then (mass_index, "Normaal")
    else if 95 ≤ mass_index ∧ mass_index ≤ 108 then (mass_index, "Mild")
    else if 109 ≤ mass_index ∧ mass_index ≤ 121 then (mass_index, "Matig")
    else (mass_index, "Ernstig")

/-- `calculations.classify_lvidd` (calculations.py lines 145-195): indexed
thresholds when BSA is available and positive, absolute-mm fallback
otherwise. -/
def classify_lvidd (lvidd_mm : ℚ) (sex : String) (bsa_m2 : Option ℚ) :
    String :=
  let lvidd_idx : Option ℚ :=
    match bsa_m2 with
    | some b => if b > 0 then some (pyRoundTo (lvidd_mm / b) 1) else none
    | none => none
  match lvidd_idx with
  | some idx =>
    if sex = "Man" then
      if idx < 31 then "niet gedilateerd"
      else if 31 ≤ idx ∧ idx ≤ 34 then "mild gedilateerd"
      else if 34 < idx ∧ idx ≤ 36 then "matig gedilateerd"
      else "ernstig gedilateerd"
    else
      if idx < 32 then "niet gedilateerd"
      else if 32 ≤ idx ∧ idx ≤ 35 then "mild gedilateerd"
      else if 35 < idx ∧ idx ≤ 37 then "matig gedilateerd"
      else "ernstig gedilateerd"
  | none =>
    if sex = "Man" then
      if lvidd_mm < 58 then "niet gedilateerd"
      else if 59 ≤ lvidd_mm ∧ lvidd_mm ≤ 63 then "mild gedilateerd"
      else if 64 ≤ lvidd_mm ∧ lvidd_mm ≤ 68 then "matig gedilateerd"
      else "ernstig gedilateerd"
    else
      if lvidd_mm < 52 then "niet gedilateerd"
      else if 53 ≤ lvidd_mm ∧ lvidd_mm ≤ 56 then "mild gedilateerd"
      else if 57 ≤ lvidd_mm ∧ lvidd_mm ≤ 61 then "matig gedilateerd"
      else "ernstig gedilateerd"

/-- The EROA block of `calculations.mitral_regurgitation_severity`
(calculations.py lines 293-299): `severity = max(severity, tier)`. -/
def mrUpdateEroa (s : ℕ) (eroa : Option ℚ) : ℕ :=
  match eroa with
  | none => s
  | some e =>
    if e ≥ 0.4 then max s 3
    else if 0.2 ≤ e ∧ e < 0.4 then max s 2
    else if e < 0.2 then max s 1
    else s

/-- The regurgitant-volume block of `mitral_regurgitation_severity`
(calculations.py lines 300-306). -/
def mrUpdateRegvol (s : ℕ) (rv : Option ℚ) : ℕ :=
  match rv with
  | none => s
  | some v =>
    if v ≥ 60 then max s 3
    else if 30 ≤ v ∧ v < 60 then max s 2
    else if v < 30 then max s 1
    else s

/-- The regurgitant-fraction block of `mitral_regurgitation_severity`
(calculations.py lines 307-313). -/
def mrUpdateRf (s : ℕ) (rf : Option ℚ) : ℕ :=
  match rf with
  | none => s
  | some f =>
    if f > 50 then max s 3
    else if 30 ≤ f ∧ f ≤ 50 then max s 2
    else if f < 30 then max s 1
    else s

/-- `calculations.mitral_regurgitation_severity` (calculations.py lines
289-316): severity starts at 0 and the three metric blocks update it in
sequence. -/
def mitral_regurgitation_severity (eroa regurgitant_volume
    regurgitant_fraction : Option ℚ) : ℕ :=
  mrUpdateRf (mrUpdateRegvol (mrUpdateEroa 0 eroa) regurgitant_volume)
    regurgitant_fraction

/-! Spec-side companions used to state the claims. -/

/-- Severity rank of the mass-index labels (`Normaal` = 0 .. `Ernstig` = 3),
used to state monotonicity claims about severity tiers. -/
def severityRank : String → ℕ
  | "Normaal" => 0
  | "Mild" => 1
  | "Matig" => 2
  | "Ernstig" => 3
  | _ => 0

/-- Severity rank of the dilation labels (`niet` = 0 .. `ernstig` = 3). -/
def dilationRank : String → ℕ
  | "niet gedilateerd" => 0
  | "mild gedilateerd" => 1
  | "matig gedilateerd" => 2
  | "ernstig gedilateerd" => 3
  | _ => 0

/-- Modelled from the claim wording of C5: the documented LVEF table
`<30 Severe; 30-40 Moderate; Man 41-51 Mild / 52-72 Normal; Vrouw 41-53
Mild / 54-74 Normal; else fallback <41 Moderate else Mild`. -/
def lvefTableSpec (x : ℚ) (sex : String) : String :=
  if x < 30 then "Ernstig"
  else if x ≤ 40 then "Matig"
  else if sex = "Man" then
    if 41 ≤ x ∧ x ≤ 51 then "Mild"
    else if 52 ≤ x ∧ x ≤ 72 then "Normaal"
    else if x < 41 then "Matig" else "Mild"
  else
    if 41 ≤ x ∧ x ≤ 53 then "Mild"
    else if 54 ≤ x ∧ x ≤ 74 then "Normaal"
    else if x < 41 then "Matig" else "Mild"

/-- Modelled from the claim wording of C4: per-metric EROA tier
(`>= 0.4 -> 3`, `0.2-0.4 -> 2`, `< 0.2 -> 1`), `None` ignored (tier 0). -/
def eroaTier : Option ℚ → ℕ
  | none => 0
  | some e => if e ≥ 0.4 then 3 else if e ≥ 0.2 then 2 else 1

/-- Modelled from the claim wording of C4: per-metric regurgitant-volume tier
(`>= 60 -> 3`, `30-60 -> 2`, `< 30 -> 1`), `None` ignored (tier 0). -/
def regvolTier : Option ℚ → ℕ
  | none => 0
  | some rv => if rv ≥ 60 then 3 else if rv ≥ 30 then 2 else 1

/-- Modelled from the claim wording of C4: per-metric regurgitant-fraction
tier (`> 50 -> 3`, `30-50 -> 2`, `< 30 -> 1`), `None` ignored (tier 0). -/
def rfTier : Option ℚ → ℕ
  | none => 0
  | some rf => if rf > 50 then 3 else if rf ≥ 30 then 2 else 1

/-! ## reports.py: aortic-valve stenosis grading -/

/-- Indexed aortic-valve area `round(ak_ava / bsa, 2)`, computed identically
in the composer (reports.py lines 244-246 and 256-259) and in the
recommendation engine (reports.py lines 399-401); `None` when either value
is missing or BSA is falsy/non-positive. -/
def avaIndexed (ava bsa : Option ℚ) : Option ℚ :=
  match ava, bsa with
  | some a, some b => if b > 0 then some (pyRoundTo (a / b) 2) else none
  | _, _ => none

/-- The automatic AK-stenosis grading of the report composer (reports.py
lines 253-278), as a function of peak velocity, mean gradient, valve area
and indexed valve area. -/
def ak_auto_label (ak_v ak_m ak_ava ava_idx : Option ℚ) : String :=
  if oGT ak_v 5 || oGT ak_m 60 then "Zeer ernstige stenose"
  else if oGE ak_v 4 || oGE ak_m 40 || oLT ak_ava 1 || oLT ava_idx 0.6 then
    "Ernstige stenose"
  else if oGE ak_v 3 || oGE ak_m 20 || oLE ak_ava 1.5 || oLE ava_idx 0.85 then
    "Matige stenose"
  else if oGE ak_v 2.5 || oGE ak_m 10 || oLE ak_ava 2 then "Milde stenose"
  else "Geen stenose"

/-- `severe_as_detected` of the recommendation engine (reports.py lines
416-430).  The Python body is a chain of early `return True`s followed by
`return False`, i.e. the disjunction of the individual checks. -/
def severe_as_detected (ak_stenose : String)
    (ak_vmax ak_mean_g ak_ava_v ak_ava_idx_v : Option ℚ) : Bool :=
  strContains ak_stenose "Ernstige stenose" || oGE ak_vmax 4 ||
    oGE ak_mean_g 40 || oLT ak_ava_v 1 || oLT ak_ava_idx_v 0.6

/-! ## app.py: PASP sentence (lines 2800-2834) -/

/-- `models.PatientContext` (models.py lines 10-21). -/
structure PatientContext where
  sex : String
  patient_id : Option String := none
  full_name : Option String := none
  date_of_birth : Option String := none
  leeftijd : Option ℚ := none
  bsa : Option ℚ := none
  weight : Option ℚ := none
  length : Option ℚ := none
deriving DecidableEq

/-- `models.ECGMeasurements` (models.py lines 139-163).  Note: this record
has NO `p_duration_ms` field; `ecg.py` and `pdf_ingest/ecg_pdf.py`
nevertheless address one. -/
structure ECGMeasurements where
  patient : PatientContext
  recorded_at : Option String := none
  vent_rate : Option ℚ := none
  pr_interval_ms : Option ℚ := none
  qrs_duration_ms : Option ℚ := none
  qt_interval_ms : Option ℚ := none
  qtc_interval_ms : Option ℚ := none
  p_axis_deg : Option ℚ := none
  qrs_axis_deg : Option ℚ := none
  t_axis_deg : Option ℚ := none
  rhythm_summary : Option String := none
  auto_report_text : Option String := none
  acquisition_device : Option String := none
deriving DecidableEq

/-- `models.ECGMetrics` (models.py lines 166-174).  It has no `qtcb_ms`
field, although `ecg.py` line 71 passes that keyword. -/
structure ECGMetrics where
  qtcf_ms : Option ℚ := none
  tachy_flag : Bool := false
  brady_flag : Bool := false
  axis_deviation : Option String := none
  summary_lines : List String := []
deriving DecidableEq

/-! ## ecg.py -/

/-- The tachycardia flag of `ecg.compute_ecg_metrics` (ecg.py line 35):
`bool(vent_rate and vent_rate > 100)` (a zero rate is falsy). -/
def ecgTachyFlag (m : ECGMeasurements) : Bool :=
  match m.vent_rate with
  | some v => decide (v ≠ 0) && decide (v > 100)
  | none => false

/-- The bradycardia flag of `ecg.compute_ecg_metrics` (ecg.py line 36):
`bool(vent_rate and vent_rate < 50)`. -/
def ecgBradyFlag (m : ECGMeasurements) : Bool :=
  match m.vent_rate with
  | some v => decide (v ≠ 0) && decide (v < 50)
  | none => false

/-- The axis-deviation label of `ecg.compute_ecg_metrics` (ecg.py lines
38-46). -/
def ecgAxisDeviation (m : ECGMeasurements) : Option String :=
  match m.qrs_axis_deg with
  | none => none
  | some a =>
    if a < -30 then some "Linkerasdeviatie"
    else if a > 90 then some "Rechterasdeviatie"
    else some "Normale QRS-as"

/-- `ecg.compute_ecg_metrics` (ecg.py lines 9-77).  Lines 14-33 compute the
Bazett/Fridericia QTc values (real-valued roots, not materialised here
because they cannot influence the result) and lines 35-53 the flags and the
summary prefix; none of that is ever returned, because line 54 reads
`measurements.p_duration_ms`, a field `models.ECGMeasurements` does not
define, so Python raises `AttributeError` on every call.  (Even without
line 54, the construction at lines 70-77 passes the unknown keyword
`qtcb_ms` to `ECGMetrics` and would raise `TypeError`.) -/
def compute_ecg_metrics (measurements : ECGMeasurements) :
    Except String ECGMetrics :=
  let _tachy := ecgTachyFlag measurements
  let _brady := ecgBradyFlag measurements
  let _axis := ecgAxisDeviation measurements
  let _summaryPrefix : List String :=
    (match measurements.rhythm_summary with
     | some r => if r ≠ "" then ["Ritme: " ++ r] else []
     | none => []) ++
    (match measurements.vent_rate with
     | some v => ["Frequentie: " ++ fmtFixed v 0 ++ " bpm"]
     | none => []) ++
    (match measurements.pr_interval_ms with
     | some v => ["PR " ++ fmtFixed v 0 ++ " ms"]
     | none => [])
  Except.error
    "AttributeError: ECGMeasurements object has no attribute p_duration_ms"

/-! ## holter.py -/

/-- `holter.HolterMeasurements` (holter.py lines 10-47). -/
structure HolterMeasurements where
  patient : PatientContext
  recording_date : Option String := none
  recording_duration_hours : Option ℤ := none
  avg_hr : Option ℤ := none
  min_hr : Option ℤ := none
  max_hr : Option ℤ := none
  afib_percentage : Option ℚ := none
  pauses_count : Option ℤ := none
  longest_pause_ms : Option ℤ := none
  ves_count : Option ℤ := none
  sves_count : Option ℤ := none
  av_block_type : Option String := none
  other_findings : Option String := none
deriving DecidableEq

/-- `holter.HolterMetrics` (holter.py lines 50-65). -/
structure HolterMetrics where
  brady_flag : Bool := false
  tachy_flag : Bool := false
  afib_detected : Bool := false
  significant_pauses : Bool := false
  frequent_ves : Bool := false
  frequent_sves : Bool := false
  av_block_detected : Bool := false
  summary_lines : List String := []
deriving DecidableEq

/-- Bradycardia flag of `compute_holter_metrics` (holter.py lines 88-89):
set only when `min_hr` is present, to `min_hr < 40`. -/
def holterBradyFlag (m : HolterMeasurements) : Bool :=
  match m.min_hr with
  | some v => decide (v < 40)
  | none => false

/-- Tachycardia flag of `compute_holter_metrics` (holter.py lines 95-96):
set only when `max_hr` is present, to `max_hr > 120`. -/
def holterTachyFlag (m : HolterMeasurements) : Bool :=
  match m.max_hr with
  | some v => decide (v > 120)
  | none => false

/-- AFib flag of `compute_holter_metrics` (holter.py lines 103-104). -/
def holterAfibDetected (m : HolterMeasurements) : Bool :=
  match m.afib_percentage with
  | some p => decide (p > 0)
  | none => false

/-- Significant-pauses flag of `compute_holter_metrics` (holter.py lines
108-109): evaluated only inside `pauses_count > 0`, as the truthy value of
`longest_pause_ms and longest_pause_ms > 2000`. -/
def holterSignificantPauses (m : HolterMeasurements) : Bool :=
  match m.pauses_count with
  | some c =>
    if c > 0 then
      match m.longest_pause_ms with
      | some l => decide (l ≠ 0) && decide (l > 2000)
      | none => false
    else false
  | none => false

/-- Frequent-VES flag of `compute_holter_metrics` (holter.py lines
118-119). -/
def holterFrequentVes (m : HolterMeasurements) : Bool :=
  match m.ves_count with
  | some v => decide (v > 1000)
  | none => false

/-- Frequent-SVES flag of `compute_holter_metrics` (holter.py lines
126-127). -/
def holterFrequentSves (m : HolterMeasurements) : Bool :=
  match m.sves_count with
  | some v => decide (v > 1000)
  | none => false

/-- AV-block flag of `compute_holter_metrics` (holter.py lines 134-135):
truthiness of `av_block_type`. -/
def holterAvBlockDetected (m : HolterMeasurements) : Bool :=
  match m.av_block_type with
  | some t => t ≠ ""
  | none => false

/-- Summary lines of `compute_holter_metrics` (holter.py lines 80-136), in
the order the Python appends them. -/
def holterSummary (m : HolterMeasurements) : List String :=
  (match m.recording_duration_hours with
   | some d => if d ≠ 0 then ["Registratieduur: " ++ toString d ++ " uur"]
               else []
   | none => []) ++
  (match m.avg_hr with
   | some v => ["Gemiddelde hartfrequentie: " ++ toString v ++ " bpm"]
   | none => []) ++
  (match m.min_hr with
   | some v =>
     [("Minimale hartfrequentie: " ++ toString v ++ " bpm") ++
       (if holterBradyFlag m then " (bradycardie)" else "")]
   | none => []) ++
  (match m.max_hr with
   | some v =>
     [("Maximale hartfrequentie: " ++ toString v ++ " bpm") ++
       (if holterTachyFlag m then " (tachycardie)" else "")]
   | none => []) ++
  (match m.afib_percentage with
   | some p =>
     if p > 0 then ["Atriumfibrilleren: " ++ pyFloatStr p ++ "% van de tijd"]
     else []
   | none => []) ++
  (match m.pauses_count with
   | some c =>
     if c > 0 then
       [("Pauzes: " ++ toString c) ++
         (match m.longest_pause_ms with
          | some l =>
            if l ≠ 0 then " (langste: " ++ toString l ++ " ms)" else ""
          | none => "") ++
         (if holterSignificantPauses m then " - significant" else "")]
     else []
   | none => []) ++
  (match m.ves_count with
   | some v =>
     [("VES: " ++ toString v) ++
       (if holterFrequentVes m then " (frequent)" else "")]
   | none => []) ++
  (match m.sves_count with
   | some v =>
     [("SVES: " ++ toString v) ++
       (if holterFrequentSves m then " (frequent)" else "")]
   | none => []) ++
  (match m.av_block_type with
   | some t => if t ≠ "" then ["AV-blok: " ++ t] else []
   | none => [])

/-- `holter.compute_holter_metrics` (holter.py lines 68-147).  The Python
interleaves flag computation with summary building; the flags have disjoint
data dependencies, so they are factored into one definition per flag here,
each cited to its source lines. -/
def compute_holter_metrics (measurements : HolterMeasurements) :
    HolterMetrics :=
  { brady_flag := holterBradyFlag measurements
    tachy_flag := holterTachyFlag measurements
    afib_detected := holterAfibDetected measurements
    significant_pauses := holterSignificantPauses measurements
    frequent_ves := holterFrequentVes measurements
    frequent_sves := holterFrequentSves measurements
    av_block_detected := holterAvBlockDetected measurements
    summary_lines := holterSummary measurements }

/-! ## models.py: echo input, fietstest, CIED, snapshot -/

/-- The slice of `st.session_state` read by the echo report builders through
`EchoReportInput.get_session_float` (models.py lines 66-78) and
`session_state.get` for the yes/no and score flags.  Each numeric field
holds the already-parsed optional float for its key (blank/unparsable
session text is `none`); the flag fields hold the `.get(key, default)`
results. -/
structure EchoSession where
  ea : Option ℚ := none
  ee : Option ℚ := none
  aoa : Option ℚ := none
  aosv : Option ℚ := none
  aostj : Option ℚ := none
  ascao : Option ℚ := none
  ak_vmax : Option ℚ := none
  ak_mean : Option ℚ := none
  ava : Option ℚ := none
  sv : Option ℚ := none
  mk_eroa : Option ℚ := none
  mk_regvol : Option ℚ := none
  mk_rf : Option ℚ := none
  tk_eroa : Option ℚ := none
  tk_regvol : Option ℚ := none
  tk_rf : Option ℚ := none
  tk_vcw : Option ℚ := none
  pk_eroa : Option ℚ := none
  pk_regvol : Option ℚ := none
  pk_rf : Option ℚ := none
  pk_dt_regjet : Option ℚ := none
  pk_pht_regjet : Option ℚ := none
  pk_pr_index : Option ℚ := none
  lvef : Option ℚ := none
  lvids : Option ℚ := none
  lvidd : Option ℚ := none
  la_volume : Option ℚ := none
  pasp_raw : Option ℚ := none
  mr_sympt : Bool := false
  af_present : Bool := false
  as_sympt : Bool := false
  as_sbp_drop : Bool := false
  as_calc_score : ℚ := 0
  as_vmax_prog : ℚ := 0
  as_bnp : ℚ := 0
deriving DecidableEq

/-- `models.EchoReportInput` (models.py lines 24-90). -/
structure EchoReportInput where
  patient : PatientContext
  lv_hypertrofie_choice : Option String := none
  lv_hypertrofie_auto : Option String := none
  ivsd : Option ℚ := none
  lvpw : Option ℚ := none
  mass_index : Option ℚ := none
  rwt : Option ℚ := none
  lv_dilatatie_choice : Option String := none
  lv_dilatatie_auto : Option String := none
  lvidd : Option ℚ := none
  systolic_option : Option String := none
  lvef : Option ℚ := none
  lv_diastolische_functie : Option String := none
  la_choice : Option String := none
  la_suggested : Option String := none
  lavi : Option ℚ := none
  rv_hypertrofie : Option String := none
  rvfwd_val : Option ℚ := none
  rvbd_val : Option ℚ := none
  rvmd_val : Option ℚ := none
  tapse : Option ℚ := none
  rv_dilatatie : Option String := none
  rv_functie : Option String := none
  pasp_text : Option String := none
  ravi_val : Option ℚ := none
  ra_dilatatie : Option String := none
  ak_morfologie : Option String := none
  ak_calcificatie : Option String := none
  ak_stenose : Option String := none
  ak_regurgitatie : Option String := none
  mk_regurgitatie : Option String := none
  tk_regurgitatie : Option String := none
  pk_regurgitatie : Option String := none
  ivc_dilatatie : Option String := none
  ivc_variatie : Option String := none
  cvd : Option String := none
  session_state : EchoSession := {}
deriving DecidableEq

/-- `models.FietstestMeasurements` (models.py lines 93-108). -/
structure FietstestMeasurements where
  patient : PatientContext
  start_watt : Option ℚ := none
  increment_watt : Option ℚ := none
  max_watt : Option ℚ := none
  duration_at_max : Option ℚ := none
  max_hr : Option ℚ := none
  bp_evolutie : Option String := none
  ritme : Option String := none
  effort_type : Option String := none
  stop_criterium : Option String := none
  ecg_changes : Option String := none
  conclusion : Option String := none
deriving DecidableEq

/-- `models.LeadMeasurements` (models.py lines 218-228). -/
structure LeadMeasurements where
  sensing : Option String := none
  impedance : Option String := none
  threshold_v : Option String := none
  threshold_ms : Option String := none
  polarity : Option String := none
  stable : Option Bool := some true
  location : Option String := none
deriving DecidableEq

/-- `models.CIEDReportInput` (models.py lines 231-262). -/
structure CIEDReportInput where
  patient : Option PatientContext := none
  device_type : Option String := none
  device_brand : Option String := none
  programming_mode : Option String := none
  lower_rate : Option ℤ := none
  upper_tracking : Option ℤ := none
  indication_text : Option String := none
  lead_ra : Bool := false
  lead_rv : Bool := false
  lead_lv : Bool := false
  other_leads : Option String := none
  sensing_ok : Bool := true
  pacing_ok : Bool := true
  impedance_ok : Bool := true
  egm_events : Option String := none
  atrial_pacing_pct : Option String := none
  ventricular_pacing_pct : Option String := none
  lv_pacing_pct : Option String := none
  settings_changed : Bool := false
  patient_dependent : Bool := false
  battery_status : Option String := none
  suggested_sensed_av : Option ℤ := none
  suggested_paced_av : Option ℤ := none
  sensed_av_delay : Option String := none
  paced_av_delay : Option String := none
  atrial_fields : LeadMeasurements := {}
  vent_fields : LeadMeasurements := {}
  lv_fields : LeadMeasurements := {}
deriving DecidableEq

/-- `models.StudySnapshot` (models.py lines 265-274).  `report_texts` is a
string-keyed dict; it is modelled as an association list. -/
structure StudySnapshot where
  patient : Option PatientContext := none
  echo : Option EchoReportInput := none
  fietstest : Option FietstestMeasurements := none
  cied : Option CIEDReportInput := none
  ecg : Option ECGMeasurements := none
  report_texts : List (String × String) := []
deriving DecidableEq

/-- The dict produced by `asdict` on an `EchoReportInput` with
`session_state` dropped (models.py line 281 via `_asdict_drop`).  In this
typed model of the payload, the nested patient dict is represented by the
coerced `PatientContext` itself, since `_coerce_patient` on an exact
field dict is the identity up to that coercion. -/
structure EchoPayload where
  patient : PatientContext
  lv_hypertrofie_choice : Option String := none
  lv_hypertrofie_auto : Option String := none
  ivsd : Option ℚ := none
  lvpw : Option ℚ := none
  mass_index : Option ℚ := none
  rwt : Option ℚ := none
  lv_dilatatie_choice : Option String := none
  lv_dilatatie_auto : Option String := none
  lvidd : Option ℚ := none
  systolic_option : Option String := none
  lvef : Option ℚ := none
  lv_diastolische_functie : Option String := none
  la_choice : Option String := none
  la_suggested : Option String := none
  lavi : Option ℚ := none
  rv_hypertrofie : Option String := none
  rvfwd_val : Option ℚ := none
  rvbd_val : Option ℚ := none
  rvmd_val : Option ℚ := none
  tapse : Option ℚ := none
  rv_dilatatie : Option String := none
  rv_functie : Option String := none
  pasp_text : Option String := none
  ravi_val : Option ℚ := none
  ra_dilatatie : Option String := none
  ak_morfologie : Option String := none
  ak_calcificatie : Option String := none
  ak_stenose : Option String := none
  ak_regurgitatie : Option String := none
  mk_regurgitatie : Option String := none
  tk_regurgitatie : Option String := none
  pk_regurgitatie : Option String := none
  ivc_dilatatie : Option String := none
  ivc_variatie : Option String := none
  cvd : Option String := none
deriving DecidableEq

/-- The snapshot payload dict of `StudySnapshot.to_dict` (models.py lines
276-290): a key is absent (`none`) when the source field was falsy.  The
fietstest/cied/ecg sub-dicts are represented by their records, as `asdict`
followed by the `from_dict` coercions is the identity on them. -/
structure StudySnapshotPayload where
  patient : Option PatientContext := none
  echo : Option EchoPayload := none
  fietstest : Option FietstestMeasurements := none
  cied : Option CIEDReportInput := none
  ecg : Option ECGMeasurements := none
  report_texts : Option (List (String × String)) := none
deriving DecidableEq

/-- Field-by-field `asdict` of an echo record minus `session_state`
(models.py lines 280-281, 352-357). -/
def toEchoPayload (e : EchoReportInput) : EchoPayload :=
  { patient := e.patient
    lv_hypertrofie_choice := e.lv_hypertrofie_choice
    lv_hypertrofie_auto := e.lv_hypertrofie_auto
    ivsd := e.ivsd
    lvpw := e.lvpw
    mass_index := e.mass_index
    rwt := e.rwt
    lv_dilatatie_choice := e.lv_dilatatie_choice
    lv_dilatatie_auto := e.lv_dilatatie_auto
    lvidd := e.lvidd
    systolic_option := e.systolic_option
    lvef := e.lvef
    lv_diastolische_functie := e.lv_diastolische_functie
    la_choice := e.la_choice
    la_suggested := e.la_suggested
    lavi := e.lavi
    rv_hypertrofie := e.rv_hypertrofie
    rvfwd_val := e.rvfwd_val
    rvbd_val := e.rvbd_val
    rvmd_val := e.rvmd_val
    tapse := e.tapse
    rv_dilatatie := e.rv_dilatatie
    rv_functie := e.rv_functie
    pasp_text := e.pasp_text
    ravi_val := e.ravi_val
    ra_dilatatie := e.ra_dilatatie
    ak_morfologie := e.ak_morfologie
    ak_calcificatie := e.ak_calcificatie
    ak_stenose := e.ak_stenose
    ak_regurgitatie := e.ak_regurgitatie
    mk_regurgitatie := e.mk_regurgitatie
    tk_regurgitatie := e.tk_regurgitatie
    pk_regurgitatie := e.pk_regurgitatie
    ivc_dilatatie := e.ivc_dilatatie
    ivc_variatie := e.ivc_variatie
    cvd := e.cvd }

/-- `_build_echo` of `StudySnapshot.from_dict` (models.py lines 299-308):
rebuild an `EchoReportInput` from the payload dict; `session_state` was
dropped, so the dataclass default (an empty session) applies.  The payload
always carries its own patient dict, so the `or patient` fallback at line
304 resolves to it. -/
def echoFromPayload (p : EchoPayload) : EchoReportInput :=
  { patient := p.patient
    lv_hypertrofie_choice := p.lv_hypertrofie_choice
    lv_hypertrofie_auto := p.lv_hypertrofie_auto
    ivsd := p.ivsd
    lvpw := p.lvpw
    mass_index := p.mass_index
    rwt := p.rwt
    lv_dilatatie_choice := p.lv_dilatatie_choice
    lv_dilatatie_auto := p.lv_dilatatie_auto
    lvidd := p.lvidd
    systolic_option := p.systolic_option
    lvef := p.lvef
    lv_diastolische_functie := p.lv_diastolische_functie
    la_choice := p.la_choice
    la_suggested := p.la_suggested
    lavi := p.lavi
    rv_hypertrofie := p.rv_hypertrofie
    rvfwd_val := p.rvfwd_val
    rvbd_val := p.rvbd_val
    rvmd_val := p.rvmd_val
    tapse := p.tapse
    rv_dilatatie := p.rv_dilatatie
    rv_functie := p.rv_functie
    pasp_text := p.pasp_text
    ravi_val := p.ravi_val
    ra_dilatatie := p.ra_dilatatie
    ak_morfologie := p.ak_morfologie
    ak_calcificatie := p.ak_calcificatie
    ak_stenose := p.ak_stenose
    ak_regurgitatie := p.ak_regurgitatie
    mk_regurgitatie := p.mk_regurgitatie
    tk_regurgitatie := p.tk_regurgitatie
    pk_regurgitatie := p.pk_regurgitatie
    ivc_dilatatie := p.ivc_dilatatie
    ivc_variatie := p.ivc_variatie
    cvd := p.cvd
    session_state := {} }

/-- `StudySnapshot.to_dict` (models.py lines 276-290): each present (truthy)
component is serialised; the echo record loses its `session_state`;
`report_texts` is included only when non-empty. -/
def StudySnapshot.to_dict (s : StudySnapshot) : StudySnapshotPayload :=
  { patient := s.patient
    echo := s.echo.map toEchoPayload
    fietstest := s.fietstest
    cied := s.cied
    ecg := s.ecg
    report_texts :=
      if s.report_texts = [] then none else some s.report_texts }

/-- `StudySnapshot.from_dict` (models.py lines 292-350).  The
fietstest/ecg builders replace the patient value by the coerced payload
patient (always present for those records), which is the identity here; the
cied builder falls back to the snapshot patient when the cied dict carries
`patient: None`, and drops the whole record when both are absent.  The
`if not data` early return (line 294) produces the same record as the
general path and is omitted.  `_coerce_lead` on an exact lead dict is the
identity. -/
def ciedFromPayload (c : CIEDReportInput)
    (patient : Option PatientContext) : Option CIEDReportInput :=
  match c.patient.orElse (fun _ => patient) with
  | some cp => some { c with patient := some cp }
  | none => none

def StudySnapshot.from_dict (p : StudySnapshotPayload) : StudySnapshot :=
  let patient := p.patient
  let cied : Option CIEDReportInput :=
    match p.cied with
    | none => none
    | some c => ciedFromPayload c patient
  { patient := patient
    echo := p.echo.map echoFromPayload
    fietstest := p.fietstest
    cied := cied
    ecg := p.ecg
    report_texts := p.report_texts.getD [] }

/-- Python `s.lower()` (ASCII case folding; the only needle searched for,
`bicus`, is ASCII). -/
def lowerString (s : String) : String :=
  String.mk (s.data.map Char.toLower)

/-- `round(v / bsa, 1)` when BSA is truthy and positive (reports.py lines
386-387, 391-392, 404-405, 517-518). -/
def idxRound1 (v bsa : Option ℚ) : Option ℚ :=
  match v, bsa with
  | some x, some b => if b > 0 then some (pyRoundTo (x / b) 1) else none
  | _, _ => none

/-- The fixed HTAD genetic-testing sentence appended at the end of the
aortic group (reports.py line 552). -/
def htadRecommendation : String :=
  "Bij aorta-aneurysma of thoracale dissectie met HTAD-risicofactoren genetische testing aangewezen (<60 j, geen klassieke risicofactoren, familiaal plots overlijden, andere aneurysmata, familiale TAD, syndromale kenmerken Marfan/Loeys-Dietz/Ehlers-Danlos)."

/-- The severe-MR recommendation group of
`generate_guideline_recommendations` (reports.py lines 442-461), in append
order. -/
def mrRecommendations (severe_mr mr_sympt af_present : Bool)
    (lvef_val lvids_v lvesdi_v pasp_v lavi_v : Option ℚ) : List String :=
  if severe_mr then
    ["Ernstige primaire mitralisregurgitatie vastgesteld."]
    ++ (if mr_sympt then
        ["Mitralisklepchirurgie is aangewezen bij ernstige primaire MR met symptomen (I-B)."]
      else [])
    ++ (if oLE lvef_val 60 then ["Chirurgie aangewezen: LVEF ≤60% (I-B)."]
      else [])
    ++ (if oGT lvids_v 40 then ["Chirurgie aangewezen: LVESD >40 mm (I-B)."]
      else [])
    ++ (if oGE lvesdi_v 20 then
        ["Chirurgie aangewezen: LVESDi ≥20 mm/m² (I-B)."]
      else [])
    ++ (if oGT pasp_v 50 then
        ["Pulmonale hypertensie met sPAP >50 mmHg (IIa-B)."]
      else [])
    ++ (if oGT lavi_v 60 then ["LA dilatatie (LAVI >60 mL/m²) (IIa-B)."]
      else [])
    ++ (if af_present then ["Voorkamerfibrillatie bij ernstige MR (IIa-B)."]
      else [])
    ++ ["Chirurgisch klepherstel heeft de voorkeur (I-B).",
        "Minimaal invasieve klepchirurgie kan overwogen worden (IIb)."]
    ++ (if mr_sympt then
        ["TEER kan worden overwogen bij symptomatische ernstige MR met hoog chirurgisch risico en geschikte anatomie."]
      else [])
  else []

/-- The severe-AS recommendation group of
`generate_guideline_recommendations` (reports.py lines 463-507), in append
order. -/
def asRecommendations (severe_as lflg as_sympt as_sbp_drop : Bool)
    (as_calc_score as_vmax_prog as_bnp : ℚ)
    (lvef_val ak_mean_g ak_vmax : Option ℚ) (sex : String)
    (leeftijd : Option ℚ) : List String :=
  if severe_as then
    ["Ernstige aortaklepstenose vastgesteld."]
    ++ (if as_sympt then
        ["Interventie aangewezen bij symptomatische ernstige AS (I-B)."]
      else [])
    ++ (if lflg then
        ["Low-flow low-gradient patroon met ernstig stenoseprofiel."]
      else [])
    ++ (match lvef_val with
      | some lv =>
        if lv < 50 then
          ["Interventie aangewezen bij LVEF <50% zonder andere oorzaak (I-B)."]
        else if lv < 55 then
          ["Interventie te overwegen bij LVEF <55% zonder andere oorzaak (IIa)."]
        else []
      | none => [])
    ++ (if as_sbp_drop then
        ["Bloeddrukdaling >20 mmHg bij inspanning (IIa)."]
      else [])
    ++ (if oGT ak_mean_g 60 then
        ["Zeer ernstige AS: mean gradiënt >60 mmHg (IIa)."]
      else [])
    ++ (if oGT ak_vmax 5 then ["Zeer ernstige AS: Vmax >5.0 m/s (IIa)."]
      else [])
    ++ (if as_calc_score ≠ 0 ∧ ((sex = "Man" ∧ as_calc_score > 2000) ∨
          (sex ≠ "Man" ∧ as_calc_score > 1200)) then
        ["Ernstige calcificatie ondersteunt interventie (IIa)."]
      else [])
    ++ (if as_vmax_prog ≠ 0 ∧ as_vmax_prog > 0.3 then
        ["Vmax-progressie >0.3 m/s/jaar (IIa)."]
      else [])
    ++ (if as_bnp ≠ 0 ∧ as_bnp > 0 then
        ["Verhoogde BNP/NT-proBNP ondersteunt interventie (IIa)."]
      else [])
    ++ (match leeftijd.map pyIntTrunc with
      | some a =>
        if a ≥ 70 then ["TAVI aanbevolen bij geschikte anatomie (I-A)."]
        else
          ["SAVR aanbevolen bij leeftijd <70 jaar en laag operatierisico (I-B). TAVI kan worden overwogen afhankelijk van anatomie/risico (IIa/IIb)."]
      | none => [])
  else []

/-- The aortic-segment recommendation group of
`generate_guideline_recommendations` (reports.py lines 509-552), in append
order: the four session segment values are collected, indexed when BSA is
positive, and the ladder of absolute-mm checks runs on their maximum; the
HTAD sentence is appended unconditionally whenever a maximum exists. -/
def aortaRecommendations (aoa aosv aostj ascao bsa : Option ℚ)
    (sex ak_stenose ak_morfologie : String) (severe_as : Bool) :
    List String :=
  let ao_vals : List ℚ := [aoa, aosv, aostj, ascao].filterMap id
  let ao_idx_vals : List ℚ :=
    match bsa with
    | some b => if b > 0 then ao_vals.map (fun v => pyRoundTo (v / b) 1)
                else []
    | none => []
  let max_ao := ao_vals.max?
  let max_ao_idx := ao_idx_vals.max?
  let bicuspid := strContains (lowerString ak_morfologie) "bicus"
  match max_ao with
  | none => []
  | some mx =>
    (if mx ≥ 55 then ["Aorta ascendens ≥55 mm: chirurgie aanbevolen (I-B)."]
     else if mx ≥ 50 then
       if bicuspid || sex == "Man" then
         ["Aorta ascendens ≥50 mm: overweeg chirurgie (IIa), zeker bij bicuspide anatomie of man."]
       else ["Aorta ascendens ≥50 mm: overweeg chirurgie (IIa)."]
     else [])
    ++ (if mx ≥ 45 ∧ (strContains ak_stenose "Ernstige stenose" = true ∨
          severe_as = true) then
        ["Bij indicatie voor klepchirurgie en AscAo ≥45 mm: gelijktijdige aortachirurgie overwegen (IIa)."]
      else [])
    ++ (if 45 ≤ mx ∧ mx < 50 then
        ["AscAo 45-49 mm: controle CT/MRI/echo om de 6-12 maanden."]
      else if 40 ≤ mx ∧ mx < 45 then
        ["AscAo 40-44 mm: controle beeldvorming jaarlijks."]
      else if oGT max_ao_idx 17 = true ∧ mx < 40 then
        ["AscAo index >17 mm/m²: overweeg jaarlijkse opvolging ondanks absolute <40 mm."]
      else if mx ≥ 37 then
        ["AscAo 37-39 mm: herbeoordeling binnen 2-3 jaar indien stabiel."]
      else [])
    ++ (if 30 ≤ mx ∧ mx < 40 then ["Aorta 30-40 mm: TTE elke 3 jaar."]
      else [])
    ++ (if 40 ≤ mx ∧ mx ≤ 44 then
        ["Aorta 40-44 mm: baseline CT/MR aorta + TTE controle in 1 jaar; bij groei >3 mm/jaar bevestigen met CT/MR en daarna elke 6 maanden TTE; bij groei <3 mm/jaar TTE elke 2 jaar."]
      else [])
    ++ (if 45 ≤ mx ∧ mx ≤ 49 then
        ["Aorta 45-49 mm: baseline CT/MR aorta en TTE elke 6 maanden."]
      else [])
    ++ (if 50 ≤ mx ∧ mx ≤ 52 then
        ["Aorta 50-52 mm: baseline CT/MR aorta; bij hoog-risico kenmerken (familiale aorta-event, ongecontroleerde hypertensie, leeftijd <50 j) kan chirurgie overwogen worden (IIb); anders elke 6 maanden nieuwe beeldvorming; bij groei >3 mm/jaar chirurgie overwegen."]
      else [])
    ++ (if 50 ≤ mx ∧ mx ≤ 54 then
        ["Aorta 50-54 mm: baseline CT/MR aorta; bij wortel-fenotype en bicuspide klep chirurgie (I); bij wortel-fenotype en tricuspide klep chirurgie te overwegen (IIb)."]
      else [])
    ++ (if mx > 55 then ["Aorta >55 mm: chirurgie (I)."] else [])
    ++ [htadRecommendation]

/-- `reports.generate_guideline_recommendations` (reports.py lines
368-556): derive the indexed values, detect severe MR / severe AS /
low-flow-low-gradient, then emit the three groups in order.  The
`lvidd` session read at line 384 is never used afterwards and is not
materialised.  The group bodies, which the Python builds with sequential
`recs.append` calls, are the three faithful group definitions above. -/
def generate_guideline_recommendations (ctx : EchoReportInput) :
    List String :=
  let bsa := ctx.patient.bsa
  let sex := ctx.patient.sex
  let leeftijd := ctx.patient.leeftijd
  let ak_stenose := (ctx.ak_stenose.getD "")
  let mk_regurgitatie := (ctx.mk_regurgitatie.getD "")
  let ak_morfologie := (ctx.ak_morfologie.getD "")
  let s := ctx.session_state
  let lvesdi_v := idxRound1 s.lvids bsa
  let lavi_v := idxRound1 s.la_volume bsa
  let ak_ava_idx_v := avaIndexed s.ava bsa
  let svi_v := idxRound1 s.sv bsa
  let mk_sev := mitral_regurgitation_severity s.mk_eroa s.mk_regvol s.mk_rf
  let severe_mr :=
    strContains mk_regurgitatie "Ernstige mitralis regurgitatie" ||
      mk_sev == 3
  let severe_as :=
    severe_as_detected ak_stenose s.ak_vmax s.ak_mean s.ava ak_ava_idx_v
  let lflg := (oLT s.ava 1 || oLT ak_ava_idx_v 0.6) && oLT s.ak_mean 40 &&
    oLE svi_v 35
  mrRecommendations severe_mr s.mr_sympt s.af_present s.lvef s.lvids
    lvesdi_v s.pasp_raw lavi_v
  ++ asRecommendations severe_as lflg s.as_sympt s.as_sbp_drop
    s.as_calc_score s.as_vmax_prog s.as_bnp s.lvef s.ak_mean s.ak_vmax sex
    leeftijd
  ++ aortaRecommendations s.aoa s.aosv s.aostj s.ascao bsa sex ak_stenose
    ak_morfologie severe_as

/-- Python `s[:-1]`. -/
def pyDropLast1 (s : String) : String :=
  String.mk s.data.dropLast

/-- One aortic-segment measurement item of the echo composer (reports.py
lines 125-163): `"<short> <round(val)> mm[, <idx> mm/m²]"`. -/
def aoSegmentItem (val idx : Option ℚ) (short : String) : List String :=
  match val with
  | none => []
  | some v =>
    match idx with
    | some i =>
      [short ++ " " ++ toString (pyRoundInt v) ++ " mm, " ++ fmtFixed i 1 ++
        " mm/m²"]
    | none => [short ++ " " ++ toString (pyRoundInt v) ++ " mm"]

/-- One aortic-segment dilation sentence of the echo composer (reports.py
lines 128-131 etc.), emitted when the indexed value exceeds the segment
cutoff. -/
def aoSegmentAbnormal (val idx : Option ℚ) (long : String) (cut : ℚ) :
    List String :=
  match val, idx with
  | some v, some i =>
    if i > cut then
      [long ++ " is gedilateerd (" ++ toString (pyRoundInt v) ++ " mm, " ++
        fmtFixed i 1 ++ " mm/m²)."]
    else []
  | _, _ => []

/-- `reports.generate_echo_report` (reports.py lines 45-365): the narrative
echo report.  Section by section in source order; every Python
`x or ""` / `str(x or "")` becomes `Option.getD "" `, every
`if value is not None` a match, f-string float interpolation `{v}` becomes
`pyFloatStr`, `{v:.nf}` becomes `fmtFixed v n` and `int(round(v))` becomes
`pyRoundInt`. -/
def generate_echo_report (ctx : EchoReportInput) : String :=
  let bsa := ctx.patient.bsa
  let s := ctx.session_state
  -- LV line (lines 52-83)
  let hypertrophy_label := pyOrStr ctx.lv_hypertrofie_choice
    ctx.lv_hypertrofie_auto
  let meas : List String :=
    (match ctx.ivsd with
     | some v => ["IVSd " ++ pyFloatStr v ++ " mm"]
     | none => []) ++
    (match ctx.lvpw with
     | some v => ["LVPWd " ++ pyFloatStr v ++ " mm"]
     | none => []) ++
    (match ctx.mass_index with
     | some v => ["LVMI " ++ pyFloatStr v ++ " g/m²"]
     | none => []) ++
    (match ctx.rwt with
     | some v => ["RWT " ++ pyFloatStr v]
     | none => [])
  let dil_label := pyOrStr ctx.lv_dilatatie_choice ctx.lv_dilatatie_auto
  let syst_txt := (ctx.systolic_option.getD "") ++
    (match ctx.lvef with
     | some v => " (LVEF " ++ pyFloatStr v ++ "%)"
     | none => "")
  let lv_parts : List String :=
    (if truthy hypertrophy_label then [hypertrophy_label.getD ""] else []) ++
    (if meas ≠ [] then ["(" ++ String.intercalate ", " meas ++ ")"]
     else []) ++
    (if truthy dil_label then
      match ctx.lvidd with
      | some v =>
        [(dil_label.getD "") ++ " (LVIDd " ++ pyFloatStr v ++ " mm)"]
      | none => [dil_label.getD ""]
     else []) ++
    (if syst_txt ≠ "" then ["met " ++ syst_txt] else [])
  let lvLine := "LV: " ++ String.intercalate ", " lv_parts ++ "."
  -- diastolic line (lines 85-95)
  let extras : List String :=
    (match s.ea with
     | some v => ["E/A " ++ fmtFixed v 1]
     | none => []) ++
    (match s.ee with
     | some v => ["E/e\x27 " ++ fmtFixed v 1]
     | none => [])
  let diastolicBase := ctx.lv_diastolische_functie.getD ""
  let diastolicLine :=
    (if extras ≠ [] then
      diastolicBase ++ " (" ++ String.intercalate ", " extras ++ ")"
     else diastolicBase) ++ "."
  -- LA line (lines 97-101)
  let la_label := (pyOrStr (pyOrStr ctx.la_choice ctx.la_suggested)
    (some "Niet gedilateerd")).getD ""
  let laLine :=
    match ctx.lavi with
    | some v => "LA: " ++ la_label ++ ". (LAVI " ++ pyFloatStr v ++ " mL/m²)."
    | none => "LA: " ++ la_label ++ "."
  -- aorta block (lines 103-171)
  let aoa_idx := idxRound1 s.aoa bsa
  let aosv_idx := idxRound1 s.aosv bsa
  let aostj_idx := idxRound1 s.aostj bsa
  let ascao_idx := idxRound1 s.ascao bsa
  let ao_items :=
    aoSegmentItem s.aoa aoa_idx "AoA" ++
    aoSegmentItem s.aosv aosv_idx "AoSV" ++
    aoSegmentItem s.aostj aostj_idx "AoSTJ" ++
    aoSegmentItem s.ascao ascao_idx "AscAo"
  let ao_abnormals :=
    aoSegmentAbnormal s.aoa aoa_idx "Aorta annulus (AoA)" 14 ++
    aoSegmentAbnormal s.aosv aosv_idx "Aorta sinus valsalva (AoSV)" 20 ++
    aoSegmentAbnormal s.aostj aostj_idx
      "Aorta sinotubulaire junctie (AoSTJ)" 16 ++
    aoSegmentAbnormal s.ascao ascao_idx "Aorta ascendens (AscAo)" 17
  let aoLines : List String :=
    if ao_items ≠ [] then
      ("AO: " ++
        (if ao_abnormals ≠ [] then "Aorta gedilateerd"
         else "Aorta niet gedilateerd") ++
        " (" ++ String.intercalate ", " ao_items ++ ").") :: ao_abnormals
    else []
  -- RV line (lines 175-194)
  let rv_details : List String :=
    (match ctx.rvfwd_val with
     | some v => ["RVFWd " ++ toString (pyRoundInt v) ++ "mm"]
     | none => []) ++
    (match ctx.rvbd_val with
     | some v => ["RVBDd " ++ toString (pyRoundInt v) ++ "mm"]
     | none => []) ++
    (match ctx.rvmd_val with
     | some v => ["RVMDd " ++ toString (pyRoundInt v) ++ "mm"]
     | none => [])
  let rv_label := (ctx.rv_hypertrofie.getD "") ++
    (if rv_details ≠ [] then
      " (" ++ String.intercalate "; " rv_details ++ ")"
     else "")
  let rvLine :=
    match ctx.tapse with
    | some t =>
      "RV: " ++ rv_label ++ ", " ++ (ctx.rv_dilatatie.getD "") ++ " met " ++
        (ctx.rv_functie.getD "") ++ " (TAPSE " ++ pyFloatStr t ++ " mm). " ++
        (ctx.pasp_text.getD "")
    | none =>
      "RV: " ++ rv_label ++ ", " ++ (ctx.rv_dilatatie.getD "") ++ " met " ++
        (ctx.rv_functie.getD "") ++ ". " ++ (ctx.pasp_text.getD "")
  -- RA line (lines 196-201)
  let raLine :=
    match ctx.ravi_val with
    | some v =>
      "RA: " ++ (ctx.ra_dilatatie.getD "") ++ ". (RAVI " ++ pyFloatStr v ++
        " mL/m²)."
    | none => "RA: " ++ (ctx.ra_dilatatie.getD "") ++ "."
  -- AK line (lines 205-287)
  let ava_idx := avaIndexed s.ava bsa
  let svi := idxRound1 s.sv bsa
  let ak_meas_parts : List String :=
    (match s.ak_vmax with
     | some v => ["Vmax " ++ fmtFixed v 2 ++ " m/s"]
     | none => []) ++
    (match s.ak_mean with
     | some v => ["MeanG " ++ toString (pyRoundInt v) ++ " mmHg"]
     | none => []) ++
    (match s.ava with
     | some a =>
       match ava_idx with
       | some i =>
         ["AVA " ++ fmtFixed a 2 ++ " cm², " ++ fmtFixed i 2 ++ " cm²/m²"]
       | none => ["AVA " ++ fmtFixed a 2 ++ " cm²"]
     | none => []) ++
    (match s.sv with
     | some v =>
       match svi with
       | some i =>
         ["SV " ++ toString (pyRoundInt v) ++ " mL, SVi " ++ fmtFixed i 1 ++
           " mL/m²"]
       | none => ["SV " ++ toString (pyRoundInt v) ++ " mL"]
     | none => [])
  let lflg_note :=
    if (oLT s.ava 1 || oLT ava_idx 0.6) && oLT s.ak_mean 40 && oLE svi 35 then
      " (low-flow low-gradient patroon: AVA <1.0 cm² of indexed <0.6 cm²/m² met mean <40 mmHg en SVi <=35 mL/m²)"
    else ""
  let ak_stenose_label :=
    if truthy ctx.ak_stenose then ctx.ak_stenose.getD ""
    else ak_auto_label s.ak_vmax s.ak_mean s.ava ava_idx
  let akLine := "AK: " ++ (ctx.ak_morfologie.getD "") ++ ". " ++
    (ctx.ak_calcificatie.getD "") ++ ". " ++ ak_stenose_label ++ lflg_note ++
    (if ak_meas_parts ≠ [] then
      " (" ++ String.intercalate ", " ak_meas_parts ++ ")"
     else "") ++ ". " ++ (ctx.ak_regurgitatie.getD "") ++ "."
  -- MK line (lines 289-302)
  let mk_meas_parts : List String :=
    (match s.mk_eroa with
     | some v => ["EROA " ++ fmtFixed v 2 ++ " cm²"]
     | none => []) ++
    (match s.mk_regvol with
     | some v => ["RegVol " ++ toString (pyRoundInt v) ++ " mL"]
     | none => []) ++
    (match s.mk_rf with
     | some v => ["RF " ++ fmtFixed v 0 ++ "%"]
     | none => [])
  let mkBase := "MK: Normale morfologie. " ++
    (ctx.mk_regurgitatie.getD "") ++ "."
  let mkLine :=
    if mk_meas_parts ≠ [] then
      pyDropLast1 mkBase ++ " (" ++ String.intercalate ", " mk_meas_parts ++
        ")."
    else mkBase
  -- TK line (lines 304-321)
  let tk_meas_parts : List String :=
    (match s.tk_eroa with
     | some v => ["EROA " ++ fmtFixed v 2 ++ " cm²"]
     | none => []) ++
    (match s.tk_regvol with
     | some v => ["RegVol " ++ toString (pyRoundInt v) ++ " mL"]
     | none => []) ++
    (match s.tk_rf with
     | some v => ["RF " ++ fmtFixed v 0 ++ "%"]
     | none => []) ++
    (match s.tk_vcw with
     | some v => ["VCW " ++ fmtFixed v 2 ++ " cm"]
     | none => [])
  let tkBase := "TK: Normale morfologie. " ++
    (ctx.tk_regurgitatie.getD "") ++ "."
  let tkLine :=
    if tk_meas_parts ≠ [] then
      pyDropLast1 tkBase ++ " (" ++ String.intercalate ", " tk_meas_parts ++
        ")."
    else tkBase
  -- PK line and its replacement (lines 323-359)
  let pkSimple := "PK: Normale morfologie. " ++
    (ctx.pk_regurgitatie.getD "") ++ "."
  let pk_meas_parts : List String :=
    (match s.pk_eroa with
     | some v => ["EROA " ++ fmtFixed v 2 ++ " cm²"]
     | none => []) ++
    (match s.pk_regvol with
     | some v => ["RegVol " ++ toString (pyRoundInt v) ++ " mL"]
     | none => []) ++
    (match s.pk_rf with
     | some v => ["RF " ++ fmtFixed v 0 ++ "%"]
     | none => []) ++
    (match s.pk_dt_regjet with
     | some v => ["DT " ++ toString (pyRoundInt v) ++ " ms"]
     | none => []) ++
    (match s.pk_pht_regjet with
     | some v => ["PHT " ++ toString (pyRoundInt v) ++ " ms"]
     | none => []) ++
    (match s.pk_pr_index with
     | some v => ["PR-index " ++ fmtFixed v 2]
     | none => [])
  let untilPk : List String :=
    [lvLine, diastolicLine, laLine] ++ aoLines ++
    ["", rvLine, raLine, "", akLine, mkLine, tkLine, pkSimple]
  let afterPk : List String :=
    if pk_meas_parts ≠ [] then
      (if untilPk ≠ [] ∧
          (untilPk.getLast?.any (fun x => leadsWith x.data "PK:".data)) then
        untilPk.dropLast
       else untilPk) ++
      ["PK: Normale morfologie. " ++ (ctx.pk_regurgitatie.getD "") ++
        " (" ++ String.intercalate ", " pk_meas_parts ++ ")."]
    else untilPk
  -- closing lines (lines 361-365)
  let report := afterPk ++
    ["Pericardium is normaal zonder effusie.",
     "Endocardium geen tekens van infectie.",
     "IVC is " ++ (ctx.ivc_dilatatie.getD "") ++ " " ++
       (ctx.ivc_variatie.getD "") ++ ". CVD bedraagt " ++
       (ctx.cvd.getD "") ++ " mmHg."]
  String.intercalate "\n" report

/-! ## Theorems for the calculation layer -/

/-- Each EROA update step takes the max of the incoming severity and the
claimed per-metric tier. -/
theorem mrUpdateEroa_eq_max (s : ℕ) (e : Option ℚ) :
    mrUpdateEroa s e = max s (eroaTier e) := by
  rcases e with _ | e
  · simp [mrUpdateEroa, eroaTier]
  · simp only [mrUpdateEroa, eroaTier]
    split_ifs <;> first
      | omega
      | (exfalso; simp_all [not_and, not_lt, not_le] <;> linarith)

/-- Each regurgitant-volume update step takes the max of the incoming
severity and the claimed per-metric tier. -/
theorem mrUpdateRegvol_eq_max (s : ℕ) (v : Option ℚ) :
    mrUpdateRegvol s v = max s (regvolTier v) := by
  rcases v with _ | v
  · simp [mrUpdateRegvol, regvolTier]
  · simp only [mrUpdateRegvol, regvolTier]
    split_ifs <;> first
      | omega
      | (exfalso; simp_all [not_and, not_lt, not_le] <;> linarith)

/-- Each regurgitant-fraction update step takes the max of the incoming
severity and the claimed per-metric tier. -/
theorem mrUpdateRf_eq_max (s : ℕ) (f : Option ℚ) :
    mrUpdateRf s f = max s (rfTier f) := by
  rcases f with _ | f
  · simp [mrUpdateRf, rfTier]
  · simp only [mrUpdateRf, rfTier]
    split_ifs <;> first
      | omega
      | (exfalso; simp_all [not_and, not_lt, not_le] <;> linarith)

/-- C4: `mitral_regurgitation_severity` is the maximum of the three
independently graded per-metric tiers (`None` metrics ignored), and in
particular `mitral_regurgitation_severity(eroa=0.1, regvol=65, rf=10) = 3`. -/
theorem C4_mr_severity_is_max_of_tiers :
    (∀ e rv rf : Option ℚ,
      mitral_regurgitation_severity e rv rf =
        max (max (eroaTier e) (regvolTier rv)) (rfTier rf)) ∧
    mitral_regurgitation_severity (some (1/10)) (some 65) (some 10) = 3 := by
  constructor
  · intro e rv rf
    simp only [mitral_regurgitation_severity, mrUpdateEroa_eq_max,
      mrUpdateRegvol_eq_max, mrUpdateRf_eq_max]
    omega
  · norm_num [mitral_regurgitation_severity, mrUpdateEroa, mrUpdateRegvol,
      mrUpdateRf]

/-- C5: boundary behaviour of the sex-specific classifiers matches the
documented cutoff tables: IVSd 10 Man is normal, 11 Man is the mild
hypertrophy label; LVEF 40 is moderate for either sex, 41 Man mild, 52 Man
normal; and `classify_lvef` agrees with the documented table everywhere. -/
theorem C5_classifier_boundaries :
    classify_ivsd 10 "Man" = "Normotroof" ∧
    classify_ivsd 11 "Man" = "Mild concentrisch hypertroof" ∧
    (∀ sex : String, classify_lvef 40 sex = "Matig") ∧
    classify_lvef 41 "Man" = "Mild" ∧
    classify_lvef 52 "Man" = "Normaal" ∧
    (∀ (x : ℚ) (sex : String), classify_lvef x sex = lvefTableSpec x sex) := by
  refine ⟨by norm_num [classify_ivsd], by norm_num [classify_ivsd],
    fun sex => ?_, by norm_num [classify_lvef], by norm_num [classify_lvef],
    fun x sex => ?_⟩
  · simp only [classify_lvef]
    norm_num
  · by_cases hs : sex = "Man" <;>
      simp only [classify_lvef, lvefTableSpec, hs, ne_eq, not_true_eq_false,
        not_false_eq_true, true_and, false_and, if_false, and_true] <;>
      split_ifs <;> first
        | rfl
        | (exfalso; simp_all [not_and, not_lt, not_le] <;> linarith)

/-- The composer's automatic grading reads `Ernstige stenose` or worse
exactly when the second-tier disjunction of severe criteria holds. -/
theorem ak_label_severe_iff (v m a i : Option ℚ) :
    (ak_auto_label v m a i = "Ernstige stenose" ∨
     ak_auto_label v m a i = "Zeer ernstige stenose") ↔
    (oGE v 4 || oGE m 40 || oLT a 1 || oLT i 0.6) = true := by
  cases hb1 : (oGT v 5 || oGT m 60) with
  | true =>
    have h2 : (oGE v 4 || oGE m 40 || oLT a 1 || oLT i 0.6) = true := by
      simp only [Bool.or_eq_true] at hb1
      rcases hb1 with hv | hm
      · have h4 : oGE v 4 = true := by
          rcases v with _ | x
          · simp [oGT] at hv
          · simp only [oGT, gt_iff_lt, decide_eq_true_eq] at hv
            simp only [oGE, ge_iff_le, decide_eq_true_eq]
            linarith
        simp [h4]
      · have h40 : oGE m 40 = true := by
          rcases m with _ | x
          · simp [oGT] at hm
          · simp only [oGT, gt_iff_lt, decide_eq_true_eq] at hm
            simp only [oGE, ge_iff_le, decide_eq_true_eq]
            linarith
        simp [h40]
    simp [ak_auto_label, hb1, h2]
  | false =>
    cases hb2 : (oGE v 4 || oGE m 40 || oLT a 1 || oLT i 0.6) with
    | true => simp [ak_auto_label, hb1, hb2]
    | false =>
      simp only [ak_auto_label, hb1, hb2, Bool.false_eq_true, if_false]
      simp only [Bool.false_eq_true, iff_false]
      split_ifs <;> decide

/-- C3: on the same raw aortic-valve measurements (peak velocity, mean
gradient, valve area, BSA) with no user-supplied stenosis label, the
composer's automatic grading is `Ernstige stenose`/`Zeer ernstige stenose`
exactly when the recommendation engine's `severe_as_detected` is true. -/
theorem C3_composer_engine_agree_on_severe (v m a b : Option ℚ) :
    (ak_auto_label v m a (avaIndexed a b) = "Ernstige stenose" ∨
     ak_auto_label v m a (avaIndexed a b) = "Zeer ernstige stenose") ↔
    severe_as_detected "" v m a (avaIndexed a b) = true := by
  rw [ak_label_severe_iff]
  have hempty : strContains "" "Ernstige stenose" = false := rfl
  simp [severe_as_detected, hempty]

/-- C2: the severity tier is NOT monotone in the measured value: a man with
LV-mass index exactly 115.0 g/m2 is graded `Ernstig` while 120.0 g/m2 is
graded `Mild`; and in absolute-mm fallback mode LVIDd 58 mm is graded
`ernstig gedilateerd` while 60 mm is `mild gedilateerd` (ungraded gaps in
the threshold tables fall through to the most severe tier). -/
theorem C2_severity_not_monotone :
    (115 : ℚ) < 120 ∧
    (lv_mass_index_severity 115 1 "Man").2 = "Ernstig" ∧
    (lv_mass_index_severity 120 1 "Man").2 = "Mild" ∧
    severityRank (lv_mass_index_severity 115 1 "Man").2 >
      severityRank (lv_mass_index_severity 120 1 "Man").2 ∧
    (58 : ℚ) < 60 ∧
    classify_lvidd 58 "Man" none = "ernstig gedilateerd" ∧
    classify_lvidd 60 "Man" none = "mild gedilateerd" ∧
    dilationRank (classify_lvidd 58 "Man" none) >
      dilationRank (classify_lvidd 60 "Man" none) := by
  have h1 : (lv_mass_index_severity 115 1 "Man").2 = "Ernstig" := by
    norm_num [lv_mass_index_severity, pyRoundTo, pyRoundInt, max_def]
  have h2 : (lv_mass_index_severity 120 1 "Man").2 = "Mild" := by
    norm_num [lv_mass_index_severity, pyRoundTo, pyRoundInt, max_def]
  have h3 : classify_lvidd 58 "Man" none = "ernstig gedilateerd" := by
    norm_num [classify_lvidd]
  have h4 : classify_lvidd 60 "Man" none = "mild gedilateerd" := by
    norm_num [classify_lvidd]
  exact ⟨by norm_num, h1, h2, by rw [h1, h2]; decide, by norm_num, h3, h4,
    by rw [h3, h4]; decide⟩

/-- C1: FALSE for the code as shipped — `compute_ecg_metrics` never returns
an `ECGMetrics` record: ecg.py line 54 reads `measurements.p_duration_ms`,
a field `models.ECGMeasurements` does not define, so every call (including
the record with every optional field `None`) raises `AttributeError` instead
of returning.  The claim is the documented contract (spec section 7) and the
rest of the repository constructs records with that field, so the stale
field list in models.py is the slip. -/
theorem C1_compute_ecg_metrics_always_raises :
    (∀ (m : ECGMeasurements) (r : ECGMetrics),
      compute_ecg_metrics m ≠ Except.ok r) ∧
    compute_ecg_metrics { patient := { sex := "Man" } } =
      Except.error
        "AttributeError: ECGMeasurements object has no attribute p_duration_ms" := by
  constructor
  · intro m r h
    simp [compute_ecg_metrics] at h
  · rfl

/-- Counterexample to C7 as stated: a Holter recording with a maximum heart
rate of 110 bpm exceeds 100 bpm, yet `compute_holter_metrics` does not set
the tachycardia flag (its threshold is 120 bpm, holter.py line 96). -/
theorem C7_holter_tachy_not_at_100 :
    (110 : ℤ) > 100 ∧
    (compute_holter_metrics
      { patient := { sex := "Man" }, max_hr := some 110 }).tachy_flag =
      false := by
  exact ⟨by decide, by decide⟩

/-- C7 (amended): the aggregator flags as actually computed — Holter
bradycardia below 40 bpm, Holter tachycardia above 120 bpm (not 100),
frequent ectopy above 1000, significant pauses requiring a positive pause
count and a longest pause above 2000 ms, AFib exactly when the percentage
is positive; and the ECG flag expressions (ecg.py lines 35-36) use above
100 / below 50 bpm on a nonzero rate. -/
theorem C7_threshold_flags (hm : HolterMeasurements) (em : ECGMeasurements) :
    ((compute_holter_metrics hm).brady_flag = true ↔
      (∃ v, hm.min_hr = some v ∧ v < 40)) ∧
    ((compute_holter_metrics hm).tachy_flag = true ↔
      (∃ v, hm.max_hr = some v ∧ v > 120)) ∧
    ((compute_holter_metrics hm).afib_detected = true ↔
      (∃ p, hm.afib_percentage = some p ∧ p > 0)) ∧
    ((compute_holter_metrics hm).significant_pauses = true ↔
      ((∃ c, hm.pauses_count = some c ∧ c > 0) ∧
       (∃ l, hm.longest_pause_ms = some l ∧ l > 2000))) ∧
    ((compute_holter_metrics hm).frequent_ves = true ↔
      (∃ v, hm.ves_count = some v ∧ v > 1000)) ∧
    ((compute_holter_metrics hm).frequent_sves = true ↔
      (∃ v, hm.sves_count = some v ∧ v > 1000)) ∧
    (ecgTachyFlag em = true ↔
      (∃ v, em.vent_rate = some v ∧ v ≠ 0 ∧ v > 100)) ∧
    (ecgBradyFlag em = true ↔
      (∃ v, em.vent_rate = some v ∧ v ≠ 0 ∧ v < 50)) := by
  refine ⟨?_, ?_, ?_, ?_, ?_, ?_, ?_, ?_⟩
  · rcases h : hm.min_hr with _ | v <;>
      simp [compute_holter_metrics, holterBradyFlag, h]
  · rcases h : hm.max_hr with _ | v <;>
      simp [compute_holter_metrics, holterTachyFlag, h]
  · rcases h : hm.afib_percentage with _ | p <;>
      simp [compute_holter_metrics, holterAfibDetected, h]
  · rcases h : hm.pauses_count with _ | c <;>
      rcases h2 : hm.longest_pause_ms with _ | l <;>
      simp [compute_holter_metrics, holterSignificantPauses, h, h2] <;>
      (intros; omega)
  · rcases h : hm.ves_count with _ | v <;>
      simp [compute_holter_metrics, holterFrequentVes, h]
  · rcases h : hm.sves_count with _ | v <;>
      simp [compute_holter_metrics, holterFrequentSves, h]
  · rcases h : em.vent_rate with _ | v <;> simp [ecgTachyFlag, h]
  · rcases h : em.vent_rate with _ | v <;> simp [ecgBradyFlag, h]

/-- Serialising an echo record and rebuilding it restores every field, with
the session reset to empty. -/
theorem echo_payload_roundtrip (e : EchoReportInput)
    (h : e.session_state = ({} : EchoSession)) :
    echoFromPayload (toEchoPayload e) = e := by
  cases e
  simp_all [toEchoPayload, echoFromPayload]

/-- Restoring a CIED record's own patient is the identity. -/
theorem cied_patient_roundtrip (c : CIEDReportInput) (cp : PatientContext)
    (h : c.patient = some cp) :
    ({ c with patient := some cp } : CIEDReportInput) = c := by
  cases c
  simp_all

/-- Counterexample to C9 as stated: a snapshot holding only a CIED record
with no patient (its `patient` field is `None` and the snapshot-level
patient is also `None`) loses the CIED record in the round trip —
`from_dict` drops it (models.py lines 324-326), so the per-study records
are not field-equal. -/
theorem C9_roundtrip_counterexample :
    (StudySnapshot.from_dict (StudySnapshot.to_dict
      { cied := some {} })).cied = none ∧
    ({ cied := some {} } : StudySnapshot).cied ≠ none ∧
    StudySnapshot.from_dict (StudySnapshot.to_dict { cied := some {} }) ≠
      ({ cied := some {} } : StudySnapshot) := by
  exact ⟨rfl, by decide, by decide⟩

/-- C9 (amended): the `to_dict`/`from_dict` pair round-trips the patient,
the per-study records and the `report_texts` map field-equally, provided
the echo record (when present) carries an empty session dict — serialising
drops `session_state` by design — and the CIED record (when present)
carries its own patient. -/
theorem C9_roundtrip_amended (s : StudySnapshot)
    (hecho : ∀ e, s.echo = some e → e.session_state = ({} : EchoSession))
    (hcied : ∀ c, s.cied = some c → c.patient.isSome = true) :
    StudySnapshot.from_dict (StudySnapshot.to_dict s) = s := by
  obtain ⟨pat, echo, ft, cied, ecg, rts⟩ := s
  simp only [StudySnapshot.to_dict, StudySnapshot.from_dict,
    StudySnapshot.mk.injEq]
  refine ⟨trivial, ?_, trivial, ?_, trivial, ?_⟩
  · rcases echo with _ | e
    · rfl
    · show some (echoFromPayload (toEchoPayload e)) = some e
      rw [echo_payload_roundtrip e (hecho e rfl)]
  · rcases cied with _ | c
    · rfl
    · show ciedFromPayload c pat = some c
      rcases hc : c.patient with _ | cp
      · have hp := hcied c rfl
        rw [hc] at hp
        simp at hp
      · simp only [ciedFromPayload]
        rw [hc]
        exact congrArg some (cied_patient_roundtrip c cp hc)
  · by_cases hr : rts = []
    · subst hr
      rfl
    · simp [hr]

/-- Witness for C9 (amended): a concrete snapshot with a patient, an echo
record with an empty session, and one report text round-trips exactly. -/
theorem C9_roundtrip_amended_witness :
    StudySnapshot.from_dict (StudySnapshot.to_dict
      { patient := some { sex := "Vrouw" },
        echo := some { patient := { sex := "Vrouw" }, lvef := some 55 },
        report_texts := [("full_echo", "LV: .")] }) =
      { patient := some { sex := "Vrouw" },
        echo := some { patient := { sex := "Vrouw" }, lvef := some 55 },
        report_texts := [("full_echo", "LV: .")] } :=
  C9_roundtrip_amended _
    (fun e he => by injection he with h; subst h; rfl)
    (fun c hc => Option.noConfusion hc)

/-- When any aortic segment was measured, the aortic recommendation group is
some prefix followed by the HTAD sentence. -/
theorem aortaRecommendations_ends_htad (aoa aosv aostj ascao bsa : Option ℚ)
    (sex ak_stenose ak_morfologie : String) (severe_as : Bool)
    (h : aoa.isSome ∨ aosv.isSome ∨ aostj.isSome ∨ ascao.isSome) :
    ∃ l, aortaRecommendations aoa aosv aostj ascao bsa sex ak_stenose
      ak_morfologie severe_as = l ++ [htadRecommendation] := by
  have hmem : ∀ (x : ℚ) (o : Option ℚ), o = some x →
      o ∈ [aoa, aosv, aostj, ascao] →
      x ∈ [aoa, aosv, aostj, ascao].filterMap id := by
    intro x o ho hin
    exact List.mem_filterMap.mpr ⟨o, hin, by rw [ho]; rfl⟩
  have hne : ([aoa, aosv, aostj, ascao].filterMap id) ≠ [] := by
    rcases h with h | h | h | h <;>
      obtain ⟨x, hx⟩ := Option.isSome_iff_exists.mp h <;>
      exact List.ne_nil_of_mem (hmem x _ hx (by simp))
  obtain ⟨mx, hmx⟩ :
      ∃ mx, ([aoa, aosv, aostj, ascao].filterMap id).max? = some mx := by
    rcases hm : ([aoa, aosv, aostj, ascao].filterMap id).max? with _ | mx
    · exact absurd (List.max?_eq_none_iff.mp hm) hne
    · exact ⟨mx, rfl⟩
  simp only [aortaRecommendations]
  rw [hmx]
  exact ⟨_, rfl⟩

/-- C10: whenever at least one of the four aortic-segment session values
(`aoa`, `aosv`, `aostj`, `ascao`) parses to a float, the recommendation
list is non-empty and its last entry is the fixed HTAD genetic-testing
sentence, appended unconditionally even for normal-sized segments. -/
theorem C10_htad_sentence_appended (ctx : EchoReportInput)
    (h : ctx.session_state.aoa.isSome ∨ ctx.session_state.aosv.isSome ∨
      ctx.session_state.aostj.isSome ∨ ctx.session_state.ascao.isSome) :
    generate_guideline_recommendations ctx ≠ [] ∧
    (generate_guideline_recommendations ctx).getLast? =
      some htadRecommendation := by
  obtain ⟨l, hl⟩ := aortaRecommendations_ends_htad ctx.session_state.aoa
    ctx.session_state.aosv ctx.session_state.aostj ctx.session_state.ascao
    ctx.patient.bsa ctx.patient.sex (ctx.ak_stenose.getD "")
    (ctx.ak_morfologie.getD "")
    (severe_as_detected (ctx.ak_stenose.getD "") ctx.session_state.ak_vmax
      ctx.session_state.ak_mean ctx.session_state.ava
      (avaIndexed ctx.session_state.ava ctx.patient.bsa)) h
  simp only [generate_guideline_recommendations]
  rw [hl]
  have hassoc : ∀ (A B : List String),
      A ++ B ++ (l ++ [htadRecommendation]) =
        (A ++ B ++ l) ++ [htadRecommendation] := by
    intro A B
    simp [List.append_assoc]
  constructor
  · rw [hassoc]
    simp
  · rw [hassoc, List.getLast?_append_cons]
    rfl

/-- Witness for C10: a context whose session has only `aoa = 30` (a normal
aortic annulus) still gets the HTAD sentence as the last recommendation. -/
theorem C10_htad_sentence_appended_witness :
    generate_guideline_recommendations
      { patient := { sex := "Man" }, session_state := { aoa := some 30 } } ≠
      [] ∧
    (generate_guideline_recommendations
      { patient := { sex := "Man" },
        session_state := { aoa := some 30 } }).getLast? =
      some htadRecommendation :=
  C10_htad_sentence_appended _ (Or.inl rfl)

set_option maxRecDepth 16384 in
/-- Counterexample to C6 as stated: with every optional field `None` (only
`patient.sex` supplied) the echo report contains neither `Normotroof` nor
`niet gedilateerd` — the LV hypertrophy/dilation labels render as empty
segments because both the user choice and the auto label are `None`; the
only default label present is the LA line's capitalised
`Niet gedilateerd`. -/
theorem C6_default_labels_absent :
    strContains (generate_echo_report { patient := { sex := "Man" } })
      "Normotroof" = false ∧
    strContains (generate_echo_report { patient := { sex := "Man" } })
      "niet gedilateerd" = false := by
  constructor <;> decide

set_option maxRecDepth 16384 in
/-- C6 (amended): the all-`None` echo report generates without error and is
a non-empty string, but the only default labels it contains are the LA
default `Niet gedilateerd` and the automatic AK grading `Geen stenose`;
`Normotroof` does not appear. -/
theorem C6_default_report_nonempty :
    generate_echo_report { patient := { sex := "Man" } } ≠ "" ∧
    strContains (generate_echo_report { patient := { sex := "Man" } })
      "Niet gedilateerd" = true ∧
    strContains (generate_echo_report { patient := { sex := "Man" } })
      "Geen stenose" = true := by
  refine ⟨?_, by decide, by decide⟩
  decide
